import Mathlib

/-!
# Verification of the simulation-and-aggregation engine
# (`src/simulations/simulator.py`)

Shallow embedding of the simulator core.  Conventions used throughout:

* Machine floats are modelled as exact rationals extended with the IEEE
  special values `nan`, `+inf` and `-inf` (`FVal`): the claims under study
  concern only the special-value behaviour of the arithmetic (division by
  zero, NaN propagation, NaN skipping in pandas aggregations), which is
  exact and rounding-free; rounding itself is out of scope.
* `numpy.random.RandomState` is modelled as an abstract forward-only stream
  of naturals (`RandomState`); `randint(high)` draws the next element of the
  stream reduced modulo `high`, matching numpy's documented contract that
  the result lies in `[0, high)`.
* The external collaborators (set generator factory, sketch factory with its
  `add_ids` method, estimator, noiser, output sinks) are capability records
  of pure functions; Python's in-place mutation of the two random states is
  explicit state passing.
* `pandas` operations are modelled by their documented semantics:
  elementwise IEEE arithmetic on columns, `concat` of an empty list raising
  `ValueError`, `groupby` producing one group per distinct key in ascending
  key order, and the `mean` / `std` aggregations skipping NaN entries
  (`std` uses the `ddof = 1` sample denominator and is NaN when fewer than
  two non-NaN entries exist).
-/

/-- IEEE-style extended values over a numeric carrier: NaN, signed
infinities (`inf true` is `+∞`) and finite numbers. -/
inductive FVal (R : Type) where
  | nan : FVal R
  | inf : Bool → FVal R
  | num : R → FVal R
deriving DecidableEq, Repr

namespace FVal

/-- Predicate `isNan v` is true exactly on `nan`; pandas treats NaN as the missing
value marker. -/
def isNan : FVal R → Bool
  | .nan => true
  | _ => false

/-- IEEE addition on extended rationals. -/
def fadd : FVal ℚ → FVal ℚ → FVal ℚ
  | .nan, _ => .nan
  | _, .nan => .nan
  | .num a, .num b => .num (a + b)
  | .inf s, .num _ => .inf s
  | .num _, .inf t => .inf t
  | .inf s, .inf t => if s = t then .inf s else .nan

/-- IEEE subtraction on extended rationals. -/
def fsub : FVal ℚ → FVal ℚ → FVal ℚ
  | .nan, _ => .nan
  | _, .nan => .nan
  | .num a, .num b => .num (a - b)
  | .inf s, .num _ => .inf s
  | .num _, .inf t => .inf !t
  | .inf s, .inf t => if s = t then .nan else .inf s

/-- IEEE multiplication on extended rationals. -/
def fmul : FVal ℚ → FVal ℚ → FVal ℚ
  | .nan, _ => .nan
  | _, .nan => .nan
  | .num a, .num b => .num (a * b)
  | .inf s, .num b => if b = 0 then .nan else .inf (s = decide (0 < b))
  | .num a, .inf t => if a = 0 then .nan else .inf (t = decide (0 < a))
  | .inf s, .inf t => .inf (s = t)

/-- IEEE division on extended rationals.  The model has a single (positive)
zero, so `x / 0` for finite nonzero `x` is `±∞` by the sign of `x`, and
`0 / 0` is NaN — numpy/pandas elementwise behaviour. -/
def fdiv : FVal ℚ → FVal ℚ → FVal ℚ
  | .nan, _ => .nan
  | _, .nan => .nan
  | .num a, .num b =>
      if b = 0 then (if a = 0 then .nan else .inf (decide (0 < a)))
      else .num (a / b)
  | .inf s, .num b => if b = 0 then .inf s else .inf (s = decide (0 < b))
  | .num _, .inf _ => .num 0
  | .inf _, .inf _ => .nan

end FVal

/-- Model of `np.random.RandomState`, abstracted to a forward-only stream of raw
naturals with a position; external collaborators may advance it
arbitrarily, the simulator itself advances it one draw at a time. -/
structure RandomState where
  seq : Nat → Nat
  pos : Nat

/-- Draw `rs.randint(high)`: one uniform draw from `[0, high)` (numpy's one
argument form `randint(high)`), advancing the stream by one position. -/
def RandomState.randint (rs : RandomState) (high : Nat) : Nat × RandomState :=
  (rs.seq rs.pos % high, ⟨rs.seq, rs.pos + 1⟩)

/-- Function `relative_error(estimated, truth) = (estimated - truth) / truth`,
computed elementwise on float columns (module-level function of
`simulator.py`). -/
def relative_error (estimated truth : FVal ℚ) : FVal ℚ :=
  FVal.fdiv (FVal.fsub estimated truth) truth

/-- The `EstimatorConfig` namedtuple, together with the interface of the opaque
`Sketch` collaborator (`add_ids`), encoded as a capability record:
`sketch_factory` builds a fresh sketch from an integer seed, `add_ids`
inserts a collection of identifiers, `estimator` maps an ordered list of
sketches to an estimated cardinality, `noiser` optionally perturbs one
sketch. -/
structure EstimatorConfig (α Sketch : Type) where
  sketch_factory : Nat → Sketch
  add_ids : Sketch → List α → Sketch
  estimator : List Sketch → ℚ
  noiser : Option (Sketch → Sketch)

/-- One row of a per-trial run table: columns `num_sets`,
`estimated_cardinality`, `true_cardinality`. -/
structure TrialRow where
  num_sets : Nat
  estimated_cardinality : ℚ
  true_cardinality : Nat
deriving DecidableEq, Repr

/-- A trial row after `df[RUN_INDEX] = t`. -/
structure TaggedRow where
  num_sets : Nat
  estimated_cardinality : ℚ
  true_cardinality : Nat
  run_index : Nat
deriving DecidableEq, Repr

/-- A raw-table row after the `relative_error` column has been added. -/
structure RawRow where
  num_sets : Nat
  estimated_cardinality : ℚ
  true_cardinality : Nat
  run_index : Nat
  relative_error : FVal ℚ
deriving DecidableEq, Repr

/-- One row of the aggregated table: for each of the three metric columns,
the pandas groupby `mean` and `std`.  The `std` entries live over ℝ because
the standard deviation takes a square root. -/
structure AggRow where
  num_sets : Nat
  estimated_cardinality_mean : FVal ℚ
  estimated_cardinality_std : FVal ℝ
  true_cardinality_mean : FVal ℚ
  true_cardinality_std : FVal ℝ
  relative_error_mean : FVal ℚ
  relative_error_std : FVal ℝ

/-- pandas `mean` aggregation over one groupby column: NaN entries are
skipped; the mean of zero non-NaN entries is NaN. -/
def pandasMean (xs : List (FVal ℚ)) : FVal ℚ :=
  let vs := xs.filter (fun v => !v.isNan)
  if vs.length = 0 then .nan
  else FVal.fdiv (vs.foldl FVal.fadd (.num 0)) (.num vs.length)

/-- pandas `var` with `ddof = 1` over one groupby column: NaN entries are
skipped; NaN when fewer than two non-NaN entries remain. -/
def pandasVar (xs : List (FVal ℚ)) : FVal ℚ :=
  let vs := xs.filter (fun v => !v.isNan)
  if vs.length ≤ 1 then .nan
  else
    let m := FVal.fdiv (vs.foldl FVal.fadd (.num 0)) (.num vs.length)
    FVal.fdiv
      (vs.foldl (fun acc v => FVal.fadd acc (FVal.fmul (FVal.fsub v m) (FVal.fsub v m)))
        (.num 0))
      (.num (vs.length - 1))

/-- pandas `std` aggregation: the square root of the `ddof = 1` variance. -/
noncomputable def pandasStd (xs : List (FVal ℚ)) : FVal ℝ :=
  match pandasVar xs with
  | .nan => .nan
  | .inf b => .inf b
  | .num q => .num (Real.sqrt (q : ℝ))

/-- The ordered list of distinct group keys produced by
`df.groupby(NUM_SETS)`: the distinct values, sorted ascending. -/
def groupKeys (ks : List Nat) : List Nat :=
  ks.dedup.insertionSort (· ≤ ·)

/-- Errors surfaced by `run_all_and_aggregate`: `pd.concat` of an empty
list of frames raises `ValueError`, and a sink write may fail with an
exception of the caller's type `ε`. -/
inductive SimError (ε : Type) where
  | concatEmpty : SimError ε
  | sink : ε → SimError ε
deriving DecidableEq, Repr

/-- The `Simulator` object: run count, generator factory, estimator
configuration, the two random states, and the two optional output sinks
(a file handle is a write capability that either succeeds or raises). -/
structure Simulator (α Sketch ε : Type) where
  num_runs : Nat
  set_generator_factory : RandomState → List (List α) × RandomState
  estimator_config : EstimatorConfig α Sketch
  sketch_random_state : RandomState
  set_random_state : RandomState
  file_handle_raw : Option (List RawRow → Except ε Unit)
  file_handle_agg : Option (List AggRow → Except ε Unit)

namespace Simulator

variable {α Sketch ε : Type}

/-- The estimation loop of `run_one`
(`for i in range(len(sketches)): ...`): at step `i` (0-based) the
estimator is applied to the prefix `sketches[:i+1]`, the running
`true_union` set is updated with `actual_ids[i]`, and the row
`(i + 1, estimated_cardinality, len(true_union))` is appended.  The loop
walks `actual_ids` (always the same length as `sketches`) with the index
`i` and the running union carried explicitly. -/
def metricsLoop [DecidableEq α] (estimator : List Sketch → ℚ)
    (sketches : List Sketch) :
    List (List α) → Nat → Finset α → List TrialRow
  | [], _, _ => []
  | ids :: rest, i, true_union =>
      let true_union' := true_union ∪ ids.toFinset
      { num_sets := i + 1,
        estimated_cardinality := estimator (sketches.take (i + 1)),
        true_cardinality := true_union'.card } ::
        metricsLoop estimator sketches rest (i + 1) true_union'

/-- Method `Simulator.run_one`: instantiate a generator from the (shared) set
random state, draw one sketch seed with `randint(2**32 - 1)`, build one
sketch per generated set (factory at the trial seed, then `add_ids`),
optionally noise every sketch, then run the estimation loop.  Returns the
run table and the simulator with both random states advanced. -/
def run_one [DecidableEq α] (sim : Simulator α Sketch ε) :
    List TrialRow × Simulator α Sketch ε :=
  let gen := sim.set_generator_factory sim.set_random_state
  let sets := gen.1
  let draw := sim.sketch_random_state.randint (2 ^ 32 - 1)
  let sketch_random_seed := draw.1
  let sketches := sets.map (fun campaign_ids =>
    sim.estimator_config.add_ids
      (sim.estimator_config.sketch_factory sketch_random_seed) campaign_ids)
  let sketches := match sim.estimator_config.noiser with
    | some noiser => sketches.map noiser
    | none => sketches
  let metrics := metricsLoop sim.estimator_config.estimator sketches sets 0 ∅
  (metrics,
   { sim with set_random_state := gen.2, sketch_random_state := draw.2 })

/-- The sets yielded by the generator instantiated in the current trial
(`set_generator = self.set_generator_factory(self.set_random_state)`,
fully consumed by the build loop). -/
def trialSets (sim : Simulator α Sketch ε) : List (List α) :=
  (sim.set_generator_factory sim.set_random_state).1

/-- The one sketch seed drawn per trial:
`sketch_random_seed = self.sketch_random_state.randint(2**32-1)`. -/
def trialSeed (sim : Simulator α Sketch ε) : Nat :=
  (sim.sketch_random_state.randint (2 ^ 32 - 1)).1

/-- The sketches built in the current trial, one per generated set, each
constructed by the factory at the single trial seed and filled by
`add_ids`. -/
def builtSketches (sim : Simulator α Sketch ε) : List Sketch :=
  (sim.trialSets).map (fun campaign_ids =>
    sim.estimator_config.add_ids
      (sim.estimator_config.sketch_factory sim.trialSeed) campaign_ids)

/-- The trial's sketches after the optional noising pass
(`if noiser: sketches = [noiser(s) for s in sketches]`). -/
def noisedSketches (sim : Simulator α Sketch ε) : List Sketch :=
  match sim.estimator_config.noiser with
  | some noiser => (sim.builtSketches).map noiser
  | none => sim.builtSketches

/-- Assignment `df[RUN_INDEX] = t`: stamping one trial row with its run index. -/
def tagWith (t : Nat) (r : TrialRow) : TaggedRow :=
  { num_sets := r.num_sets,
    estimated_cardinality := r.estimated_cardinality,
    true_cardinality := r.true_cardinality,
    run_index := t }

/-- The driver loop of `run_all_and_aggregate`
(`for t in range(self.num_runs): df = self.run_one(); df[RUN_INDEX] = t`),
started at tag `t` with `n` iterations left: each trial's table is stamped
with its run index and collected in order. -/
def runLoop [DecidableEq α] (sim : Simulator α Sketch ε) :
    Nat → Nat → List (List TaggedRow) × Simulator α Sketch ε
  | _, 0 => ([], sim)
  | t, n + 1 =>
      let step := sim.run_one
      let tagged := step.1.map (tagWith t)
      let rest := step.2.runLoop (t + 1) n
      (tagged :: rest.1, rest.2)

/-- Adding the `relative_error` column to the concatenated raw table:
`df[RELATIVE_ERROR] = relative_error(df[EST], df[TRUE])`, elementwise. -/
def addRelativeError (r : TaggedRow) : RawRow :=
  { num_sets := r.num_sets,
    estimated_cardinality := r.estimated_cardinality,
    true_cardinality := r.true_cardinality,
    run_index := r.run_index,
    relative_error :=
      relative_error (.num r.estimated_cardinality) (.num r.true_cardinality) }

/-- Method `Simulator.aggregate`: `df.groupby(NUM_SETS).agg({... mean, std ...})`.
One output row per distinct `num_sets` key (ascending), carrying the
NaN-skipping mean and `ddof = 1` std of each metric column over the rows of
that group. -/
noncomputable def aggregate (df : List RawRow) : List AggRow :=
  (groupKeys (df.map (·.num_sets))).map (fun k =>
    let g := df.filter (fun r => r.num_sets = k)
    { num_sets := k,
      estimated_cardinality_mean :=
        pandasMean (g.map (fun r => FVal.num r.estimated_cardinality)),
      estimated_cardinality_std :=
        pandasStd (g.map (fun r => FVal.num r.estimated_cardinality)),
      true_cardinality_mean :=
        pandasMean (g.map (fun r => FVal.num (r.true_cardinality : ℚ))),
      true_cardinality_std :=
        pandasStd (g.map (fun r => FVal.num (r.true_cardinality : ℚ))),
      relative_error_mean := pandasMean (g.map (·.relative_error)),
      relative_error_std := pandasStd (g.map (·.relative_error)) })

/-- Method `Simulator.run_all_and_aggregate`: run `num_runs` trials stamping run
indices, concatenate (`pd.concat` raises on an empty list of frames), add
the `relative_error` column, aggregate, then — with both tables fully in
memory — write each configured sink in order (raw first), propagating the
first write error unhandled; finally return both tables together with the
advanced simulator. -/
noncomputable def run_all_and_aggregate [DecidableEq α]
    (sim : Simulator α Sketch ε) :
    Except (SimError ε) ((List RawRow × List AggRow) × Simulator α Sketch ε) :=
  let loop := sim.runLoop 0 sim.num_runs
  let dfs := loop.1
  if dfs.isEmpty then .error .concatEmpty
  else
    let df := dfs.flatten.map addRelativeError
    let df_agg := aggregate df
    match sim.file_handle_raw with
    | some handle =>
        match handle df with
        | .error e => .error (.sink e)
        | .ok _ =>
            match sim.file_handle_agg with
            | some handle_agg =>
                match handle_agg df_agg with
                | .error e => .error (.sink e)
                | .ok _ => .ok ((df, df_agg), loop.2)
            | none => .ok ((df, df_agg), loop.2)
    | none =>
        match sim.file_handle_agg with
        | some handle_agg =>
            match handle_agg df_agg with
            | .error e => .error (.sink e)
            | .ok _ => .ok ((df, df_agg), loop.2)
        | none => .ok ((df, df_agg), loop.2)

/-- The raw table computed by `run_all_and_aggregate` before any sink is
touched (`none` when `pd.concat` would raise on zero frames): the
sink-independent part of the computation, used to state determinism and
sink-ordering properties. -/
def computeRawTable [DecidableEq α] (sim : Simulator α Sketch ε) :
    Option (List RawRow) :=
  let loop := sim.runLoop 0 sim.num_runs
  if loop.1.isEmpty then none
  else some (loop.1.flatten.map addRelativeError)

/-- The simulator state after `k` completed trials: `run_one` advances the
two random states in place, so trial `k` starts from this state. -/
def simAfter [DecidableEq α] (sim : Simulator α Sketch ε) :
    Nat → Simulator α Sketch ε
  | 0 => sim
  | k + 1 => (sim.run_one.2).simAfter k

/-- The number of sets the generator yields in trial `k` of a
`run_all_and_aggregate` pass. -/
def trialNumSets [DecidableEq α] (sim : Simulator α Sketch ε) (k : Nat) :
    Nat :=
  ((sim.simAfter k).trialSets).length

end Simulator

/-- The raw table carried by a `run_all_and_aggregate` result, the empty
table when the call raised. -/
def rawOf {α Sketch ε : Type}
    (res : Except (SimError ε)
      ((List RawRow × List AggRow) × Simulator α Sketch ε)) :
    List RawRow :=
  match res with
  | .ok p => p.1.1
  | .error _ => []

/-- Writing a table to an optional sink: absent sinks succeed trivially,
present sinks report their own success or failure. -/
def writeOpt {β ε : Type} (handle : Option (β → Except ε Unit)) (x : β) :
    Except ε Unit :=
  match handle with
  | some f => f x
  | none => .ok ()

/-- Folding identifier sets into a running union, starting from `u`
(the `true_union.update(actual_ids[i])` accumulation). -/
def unionFrom {α : Type} [DecidableEq α] (u : Finset α)
    (sets : List (List α)) : Finset α :=
  sets.foldl (fun acc ids => acc ∪ ids.toFinset) u

/-- Modelled from the spec wording: the exact set union
`S1 ∪ ... ∪ Si` of the first `i` generated sets. -/
def specUnionUpTo {α : Type} [DecidableEq α] (sets : List (List α))
    (i : Nat) : Finset α :=
  unionFrom ∅ (sets.take i)

/-- Modelled from the spec wording: the arithmetic mean of a whole column,
every row included (NaN entries poison the sum, as IEEE addition
prescribes). -/
def specArithMean (xs : List (FVal ℚ)) : FVal ℚ :=
  FVal.fdiv (xs.foldl FVal.fadd (.num 0)) (.num xs.length)

/-- The amended column mean: the arithmetic mean of the non-NaN entries,
NaN when no entry survives — pandas' NaN-skipping `mean`. -/
def specNanMean (xs : List (FVal ℚ)) : FVal ℚ :=
  specArithMean (xs.filter (fun v => !v.isNan))

/-- The amended column standard deviation: over the non-NaN entries, the
square root of the sample variance with `N - 1` denominator, NaN when
fewer than two entries survive. -/
noncomputable def specNanStd (xs : List (FVal ℚ)) : FVal ℝ :=
  let vs := xs.filter (fun v => !v.isNan)
  if vs.length < 2 then .nan
  else
    match FVal.fdiv
      (vs.foldl (fun acc v =>
        FVal.fadd acc
          (FVal.fmul (FVal.fsub v (specArithMean vs))
            (FVal.fsub v (specArithMean vs)))) (.num 0))
      (.num (vs.length - 1)) with
    | .nan => .nan
    | .inf b => .inf b
    | .num q => .num (Real.sqrt (q : ℝ))

/-- A raw stream of zeros standing in for a concretely seeded
`np.random.RandomState` in the worked examples. -/
def zeroStream : RandomState := ⟨fun _ => 0, 0⟩

/-- A degenerate external collaborator set for worked examples: unit
sketches, a constant estimator returning `q`, no noiser. -/
def unitConfig (q : ℚ) : EstimatorConfig Nat Unit :=
  { sketch_factory := fun _ => ()
    add_ids := fun _ _ => ()
    estimator := fun _ => q
    noiser := none }

/-- A concrete simulator over the degenerate collaborators: `n` runs, the
given generator behaviour, constant estimate `q`, no output sinks. -/
def mkExampleSim (n : Nat) (gen : RandomState → List (List Nat) × RandomState)
    (q : ℚ) : Simulator Nat Unit Unit :=
  { num_runs := n
    set_generator_factory := gen
    estimator_config := unitConfig q
    sketch_random_state := zeroStream
    set_random_state := zeroStream
    file_handle_raw := none
    file_handle_agg := none }

/-- One run; the generator yields a single empty set; the estimator
reports 1.  The sole raw row then has `true_cardinality = 0` with a
positive estimate. -/
def exSimEmptySet : Simulator Nat Unit Unit :=
  mkExampleSim 1 (fun rs => ([[]], rs)) 1

/-- One run whose generator yields no sets at all. -/
def exSimNoSets : Simulator Nat Unit Unit :=
  mkExampleSim 1 (fun rs => ([], rs)) 1

/-- Two runs, one singleton set per trial: every trial contributes a row. -/
def exSimTwoRuns : Simulator Nat Unit Unit :=
  mkExampleSim 2 (fun rs => ([[1], [2]], rs)) 1

/-- Zero runs configured; construction itself succeeds. -/
def exSimZeroRuns : Simulator Nat Unit Unit :=
  mkExampleSim 0 (fun rs => ([[1]], rs)) 1

/-- A stateful generator: the first trial yields one empty set, every
later trial yields `{5}`; the estimator reports 0.  The two raw rows of
the `num_sets = 1` group then carry relative errors NaN and −1. -/
def exSimMixedNan : Simulator Nat Unit Unit :=
  mkExampleSim 2
    (fun rs => (if rs.pos = 0 then [[]] else [[5]], ⟨rs.seq, rs.pos + 1⟩)) 0

/-- Variant of `exSimTwoRuns` with a raw-output sink that always fails: identical to
it in run count, collaborators and seeds, differing only in the sinks. -/
def exSimTwoRunsFailingSink : Simulator Nat Unit Unit :=
  { exSimTwoRuns with file_handle_raw := some (fun _ => .error ()) }

/-!
## Internal lemmas
-/

namespace Simulator

variable {α Sketch ε : Type}

lemma unionFrom_cons [DecidableEq α] (u : Finset α) (ids : List α)
    (sets : List (List α)) :
    unionFrom u (ids :: sets) = unionFrom (u ∪ ids.toFinset) sets := rfl

lemma run_one_fst [DecidableEq α] (sim : Simulator α Sketch ε) :
    sim.run_one.1 =
      metricsLoop sim.estimator_config.estimator sim.noisedSketches
        sim.trialSets 0 ∅ := rfl

lemma run_one_snd [DecidableEq α] (sim : Simulator α Sketch ε) :
    sim.run_one.2 =
      { sim with
          set_random_state := (sim.set_generator_factory sim.set_random_state).2
          sketch_random_state :=
            ⟨sim.sketch_random_state.seq, sim.sketch_random_state.pos + 1⟩ } :=
  rfl

lemma metricsLoop_length [DecidableEq α] (est : List Sketch → ℚ)
    (sk : List Sketch) (actual : List (List α)) :
    ∀ (i : Nat) (u : Finset α),
      (metricsLoop est sk actual i u).length = actual.length := by
  induction actual with
  | nil => intro i u; rfl
  | cons ids rest ih => intro i u; simp [metricsLoop, ih]

lemma metricsLoop_num_col [DecidableEq α] (est : List Sketch → ℚ)
    (sk : List Sketch) (actual : List (List α)) :
    ∀ (i : Nat) (u : Finset α),
      (metricsLoop est sk actual i u).map (·.num_sets) =
        (List.range actual.length).map (fun j => i + j + 1) := by
  induction actual with
  | nil => intro i u; rfl
  | cons ids rest ih =>
      intro i u
      simp only [metricsLoop, List.map_cons, List.length_cons,
        List.range_succ_eq_map, List.map_map, ih, List.cons.injEq]
      refine ⟨by trivial, List.map_congr_left ?_⟩
      intro j _
      simp only [Function.comp_apply]
      omega

lemma metricsLoop_true_col [DecidableEq α] (est : List Sketch → ℚ)
    (sk : List Sketch) (actual : List (List α)) :
    ∀ (i : Nat) (u : Finset α),
      (metricsLoop est sk actual i u).map (·.true_cardinality) =
        (List.range actual.length).map
          (fun j => (unionFrom u (actual.take (j + 1))).card) := by
  induction actual with
  | nil => intro i u; rfl
  | cons ids rest ih =>
      intro i u
      simp only [metricsLoop, List.map_cons, List.length_cons,
        List.range_succ_eq_map, List.map_map, ih, List.cons.injEq]
      constructor
      · rfl
      · refine List.map_congr_left ?_
        intro j _
        simp only [Function.comp_apply, List.take_succ_cons, unionFrom_cons]

lemma metricsLoop_est_col [DecidableEq α] (est : List Sketch → ℚ)
    (sk : List Sketch) (actual : List (List α)) :
    ∀ (i : Nat) (u : Finset α),
      (metricsLoop est sk actual i u).map (·.estimated_cardinality) =
        (List.range actual.length).map
          (fun j => est (sk.take (i + j + 1))) := by
  induction actual with
  | nil => intro i u; rfl
  | cons ids rest ih =>
      intro i u
      simp only [metricsLoop, List.map_cons, List.length_cons,
        List.range_succ_eq_map, List.map_map, ih, List.cons.injEq]
      refine ⟨by trivial, List.map_congr_left ?_⟩
      intro j _
      simp only [Function.comp_apply]
      congr 2
      omega

end Simulator

/-!
## Claims
-/

open Simulator in
/-- C2: for a trial whose generator yields the ordered sets `S1..Sn`, the
run table produced by `run_one` has exactly `n` rows; the row at position
`i - 1` has `num_sets = i` and its `true_cardinality` is the exact
cardinality of `S1 ∪ ... ∪ Si`, duplicates across sets counted once. -/
theorem C2_run_one_true_union {α Sketch ε : Type} [DecidableEq α]
    (sim : Simulator α Sketch ε) :
    (sim.run_one.1).length = sim.trialSets.length ∧
    (sim.run_one.1).map (·.num_sets) =
      (List.range sim.trialSets.length).map (· + 1) ∧
    (sim.run_one.1).map (·.true_cardinality) =
      (List.range sim.trialSets.length).map
        (fun i => (specUnionUpTo sim.trialSets (i + 1)).card) := by
  refine ⟨?_, ?_, ?_⟩
  · rw [run_one_fst, metricsLoop_length]
  · rw [run_one_fst, metricsLoop_num_col]
    exact List.map_congr_left (fun j _ => by omega)
  · rw [run_one_fst, metricsLoop_true_col]
    rfl

open Simulator in
/-- C4: each `run_one` call draws exactly one seed from the sketch random
state (the stream advances by exactly one position), that seed is at most
`2^32 - 2`, and the whole run table is computed from `noisedSketches`,
whose sketches are all built by the factory at that single `trialSeed`. -/
theorem C4_single_seed_per_trial {α Sketch ε : Type} [DecidableEq α]
    (sim : Simulator α Sketch ε) :
    sim.trialSeed ≤ 2 ^ 32 - 2 ∧
    (∀ rs : RandomState, (rs.randint (2 ^ 32 - 1)).1 ≤ 2 ^ 32 - 2) ∧
    (sim.run_one.2).sketch_random_state =
      ⟨sim.sketch_random_state.seq, sim.sketch_random_state.pos + 1⟩ ∧
    sim.run_one.1 =
      metricsLoop sim.estimator_config.estimator sim.noisedSketches
        sim.trialSets 0 ∅ ∧
    sim.builtSketches = sim.trialSets.map (fun campaign_ids =>
      sim.estimator_config.add_ids
        (sim.estimator_config.sketch_factory sim.trialSeed) campaign_ids) := by
  have bound : ∀ rs : RandomState, (rs.randint (2 ^ 32 - 1)).1 ≤ 2 ^ 32 - 2 := by
    intro rs
    have h := Nat.mod_lt (rs.seq rs.pos) (y := 2 ^ 32 - 1) (by norm_num)
    simp only [RandomState.randint]
    omega
  exact ⟨bound sim.sketch_random_state, bound, rfl, rfl, rfl⟩

open Simulator in
/-- C7: with a noiser `f` configured, the estimator input for prefix `i`
is the first `i` noised sketches — `f` applied independently to each
fully built sketch (`builtSketches`, whose `add_ids` insertions are all
complete), never to raw identifier sets; without a noiser the estimator
receives the built sketches unmodified; the noiser has no effect on the
`num_sets` and `true_cardinality` columns. -/
theorem C7_noiser_applied_after_build {α Sketch ε : Type} [DecidableEq α]
    (sim : Simulator α Sketch ε) (f : Sketch → Sketch) :
    (({ sim with estimator_config :=
          { sim.estimator_config with noiser := some f } } :
        Simulator α Sketch ε).run_one.1).map (·.estimated_cardinality) =
      (List.range sim.trialSets.length).map (fun i =>
        sim.estimator_config.estimator
          ((sim.builtSketches.map f).take (i + 1))) ∧
    (({ sim with estimator_config :=
          { sim.estimator_config with noiser := none } } :
        Simulator α Sketch ε).run_one.1).map (·.estimated_cardinality) =
      (List.range sim.trialSets.length).map (fun i =>
        sim.estimator_config.estimator (sim.builtSketches.take (i + 1))) ∧
    (({ sim with estimator_config :=
          { sim.estimator_config with noiser := some f } } :
        Simulator α Sketch ε).run_one.1).map
        (fun r => (r.num_sets, r.true_cardinality)) =
      (({ sim with estimator_config :=
          { sim.estimator_config with noiser := none } } :
        Simulator α Sketch ε).run_one.1).map
        (fun r => (r.num_sets, r.true_cardinality)) := by
  refine ⟨?_, ?_, ?_⟩
  · rw [run_one_fst, metricsLoop_est_col]
    refine List.map_congr_left fun j _ => ?_
    simp only [noisedSketches, builtSketches, trialSets, trialSeed,
      Nat.zero_add]
  · rw [run_one_fst, metricsLoop_est_col]
    refine List.map_congr_left fun j _ => ?_
    simp only [noisedSketches, builtSketches, trialSets, trialSeed,
      Nat.zero_add]
  · have key : ∀ (s : Simulator α Sketch ε),
        (s.run_one.1).map (fun r => (r.num_sets, r.true_cardinality)) =
          ((s.run_one.1).map (·.num_sets)).zip
            ((s.run_one.1).map (·.true_cardinality)) := by
      intro s
      induction s.run_one.1 with
      | nil => rfl
      | cons r rest ih => simp [ih]
    rw [key, key, run_one_fst, run_one_fst, metricsLoop_num_col,
      metricsLoop_num_col, metricsLoop_true_col, metricsLoop_true_col]
    rfl

namespace Simulator

variable {α Sketch ε : Type}

lemma runLoop_fst [DecidableEq α] :
    ∀ (n t : Nat) (sim : Simulator α Sketch ε),
      (sim.runLoop t n).1 =
        (List.range n).map (fun k =>
          ((sim.simAfter k).run_one.1).map (tagWith (t + k))) := by
  intro n
  induction n with
  | zero => intro t sim; rfl
  | succ n ih =>
      intro t sim
      simp only [runLoop, List.range_succ_eq_map, List.map_cons,
        List.map_map, List.cons.injEq]
      constructor
      · simp [simAfter]
      · rw [ih]
        refine List.map_congr_left fun k _ => ?_
        simp only [Function.comp_apply, simAfter]
        have harith : t + 1 + k = t + (k + 1) := by omega
        rw [harith]

lemma runLoop_snd [DecidableEq α] :
    ∀ (n t : Nat) (sim : Simulator α Sketch ε),
      (sim.runLoop t n).2 = sim.simAfter n := by
  intro n
  induction n with
  | zero => intro t sim; rfl
  | succ n ih => intro t sim; simp only [runLoop, simAfter, ih]

lemma runLoop_length [DecidableEq α] (n t : Nat)
    (sim : Simulator α Sketch ε) :
    (sim.runLoop t n).1.length = n := by
  rw [runLoop_fst]
  simp

lemma run_all_eq_staged [DecidableEq α] (sim : Simulator α Sketch ε) :
    sim.run_all_and_aggregate =
      match sim.computeRawTable with
      | none => .error .concatEmpty
      | some df =>
          match writeOpt sim.file_handle_raw df with
          | .error e => .error (.sink e)
          | .ok _ =>
              match writeOpt sim.file_handle_agg (aggregate df) with
              | .error e => .error (.sink e)
              | .ok _ => .ok ((df, aggregate df), (sim.runLoop 0 sim.num_runs).2) := by
  by_cases h : (sim.runLoop 0 sim.num_runs).1.isEmpty <;>
    simp only [run_all_and_aggregate, computeRawTable, h, if_true, if_false,
      writeOpt] <;>
    cases sim.file_handle_raw <;> cases sim.file_handle_agg <;> rfl

lemma computeRawTable_eq_some [DecidableEq α] {sim : Simulator α Sketch ε}
    {df : List RawRow} (hct : sim.computeRawTable = some df) :
    df = ((sim.runLoop 0 sim.num_runs).1.flatten).map addRelativeError := by
  unfold computeRawTable at hct
  by_cases h : (sim.runLoop 0 sim.num_runs).1.isEmpty
  · simp [h] at hct
  · simp [h] at hct
    rw [← hct]
    simp

lemma computeRawTable_isSome [DecidableEq α] {sim : Simulator α Sketch ε}
    (h : 1 ≤ sim.num_runs) : (sim.computeRawTable).isSome = true := by
  have hlen := runLoop_length sim.num_runs 0 sim
  unfold computeRawTable
  have hne : (sim.runLoop 0 sim.num_runs).1.isEmpty = false := by
    cases hL : (sim.runLoop 0 sim.num_runs).1 with
    | nil => rw [hL] at hlen; simp at hlen; omega
    | cons a l => rfl
  simp [hne]

end Simulator

open Simulator in
/-- C3: two simulators agreeing on run count, generator factory, estimator
configuration and both random-state streams compute identical raw tables
(the collaborator capabilities being pure functions of the embedding,
anything beyond these five inputs — in particular the output sinks — is
irrelevant to the computed table). -/
theorem C3_two_run_determinism {α Sketch ε : Type} [DecidableEq α]
    (s1 s2 : Simulator α Sketch ε)
    (hruns : s1.num_runs = s2.num_runs)
    (hgen : s1.set_generator_factory = s2.set_generator_factory)
    (hcfg : s1.estimator_config = s2.estimator_config)
    (hsketch : s1.sketch_random_state = s2.sketch_random_state)
    (hset : s1.set_random_state = s2.set_random_state) :
    s1.computeRawTable = s2.computeRawTable := by
  have hloop : ∀ (n t : Nat) (hr : Option (List RawRow → Except ε Unit))
      (ha : Option (List AggRow → Except ε Unit))
      (sim : Simulator α Sketch ε),
      (({ sim with file_handle_raw := hr, file_handle_agg := ha } :
          Simulator α Sketch ε).runLoop t n).1 = (sim.runLoop t n).1 := by
    intro n
    induction n with
    | zero => intro t hr ha sim; rfl
    | succ n ih =>
        intro t hr ha sim
        simp only [runLoop, List.cons.injEq]
        exact ⟨rfl, ih (t + 1) hr ha sim.run_one.2⟩
  have h2 : s2 = { s1 with
      file_handle_raw := s2.file_handle_raw
      file_handle_agg := s2.file_handle_agg } := by
    cases s1; cases s2
    simp_all
  rw [h2]
  simp only [computeRawTable, hloop]

open Simulator in
/-- C3 witness: `exSimTwoRunsFailingSink` differs from `exSimTwoRuns` only
in its raw-output sink, so both compute the same raw table. -/
theorem C3_two_run_determinism_witness :
    exSimTwoRuns.computeRawTable = exSimTwoRunsFailingSink.computeRawTable :=
  C3_two_run_determinism exSimTwoRuns exSimTwoRunsFailingSink rfl rfl rfl rfl
    rfl

open Simulator in
/-- C8: `run_all_and_aggregate` equals the staged computation that first
produces the raw table (`computeRawTable`, failing only on zero frames),
then the aggregated table, and only then writes the raw sink followed by
the aggregated sink, propagating the first sink error unhandled and
otherwise returning both fully computed tables. -/
theorem C8_sinks_written_after_computation {α Sketch ε : Type}
    [DecidableEq α] (sim : Simulator α Sketch ε) :
    sim.run_all_and_aggregate =
      match sim.computeRawTable with
      | none => .error .concatEmpty
      | some df =>
          match writeOpt sim.file_handle_raw df with
          | .error e => .error (.sink e)
          | .ok _ =>
              match writeOpt sim.file_handle_agg (aggregate df) with
              | .error e => .error (.sink e)
              | .ok _ =>
                  .ok ((df, aggregate df), (sim.runLoop 0 sim.num_runs).2) :=
  run_all_eq_staged sim

open Simulator in
/-- C9: a trial whose generator yields zero sets produces an empty run
table rather than failing, and with at least one run configured the
concatenation step still succeeds (empty per-trial frames are tolerated
by `pd.concat` as long as the list of frames itself is nonempty). -/
theorem C9_zero_sets_empty_table {α Sketch ε : Type} [DecidableEq α]
    (sim : Simulator α Sketch ε) :
    (sim.trialSets = [] → sim.run_one.1 = []) ∧
    (1 ≤ sim.num_runs → (sim.computeRawTable).isSome = true) := by
  constructor
  · intro h
    rw [run_one_fst, h]
    rfl
  · exact computeRawTable_isSome

open Simulator in
/-- C9 witness: the zero-set generator of `exSimNoSets` yields an empty
run table, and its single-run aggregation still computes a raw table. -/
theorem C9_zero_sets_empty_table_witness :
    exSimNoSets.run_one.1 = [] ∧
    (exSimNoSets.computeRawTable).isSome = true :=
  ⟨(C9_zero_sets_empty_table exSimNoSets).1 rfl,
   (C9_zero_sets_empty_table exSimNoSets).2 (by decide)⟩

open Simulator in
/-- C10: with `num_runs = 0` the driver collects zero per-trial frames and
`pd.concat` of the empty list raises, so `run_all_and_aggregate` surfaces
an error instead of returning two empty tables; nothing rejects the value
at construction time (the embedding constructs such a simulator freely,
e.g. `exSimZeroRuns`). -/
theorem C10_zero_runs_concat_error {α Sketch ε : Type} [DecidableEq α]
    (sim : Simulator α Sketch ε) (h : sim.num_runs = 0) :
    sim.run_all_and_aggregate = .error .concatEmpty := by
  simp [run_all_and_aggregate, h, runLoop]

/-- C10 witness: the concrete zero-run simulator raises at run time. -/
theorem C10_zero_runs_concat_error_witness :
    exSimZeroRuns.run_all_and_aggregate = .error .concatEmpty :=
  C10_zero_runs_concat_error exSimZeroRuns rfl

namespace Simulator

variable {α Sketch ε : Type}

lemma addRel_rel_col (l : List TaggedRow) :
    (l.map addRelativeError).map (·.relative_error) =
      (l.map addRelativeError).map (fun r =>
        relative_error (.num r.estimated_cardinality)
          (.num (r.true_cardinality : ℚ))) := by
  induction l with
  | nil => rfl
  | cons r rest ih =>
      simp only [List.map_cons, List.cons.injEq] at ih ⊢
      exact ⟨rfl, ih⟩

end Simulator

open Simulator in
/-- C1 (amended): every raw row's `relative_error` is the IEEE value of
`(estimated − true) / true` computed from that row's own columns; at
`true = 0` this is NaN only when the estimate is also 0, and `+∞` / `−∞`
for a positive / negative estimate — the division never throws, but it
does not collapse to NaN for nonzero estimates. -/
theorem C1_relative_error_column {α Sketch ε : Type} [DecidableEq α]
    (sim : Simulator α Sketch ε) :
    ((rawOf sim.run_all_and_aggregate).map (·.relative_error) =
      (rawOf sim.run_all_and_aggregate).map (fun r =>
        relative_error (.num r.estimated_cardinality)
          (.num (r.true_cardinality : ℚ)))) ∧
    (∀ e t : ℚ, relative_error (.num e) (.num t) =
      if t = 0 then (if e = 0 then FVal.nan else FVal.inf (decide (0 < e)))
      else FVal.num ((e - t) / t)) := by
  constructor
  · rw [run_all_eq_staged]
    cases hct : sim.computeRawTable with
    | none => rfl
    | some df =>
        have hdf := computeRawTable_eq_some hct
        dsimp only
        cases writeOpt sim.file_handle_raw df with
        | error e => rfl
        | ok u =>
            cases writeOpt sim.file_handle_agg (aggregate df) with
            | error e => rfl
            | ok u2 =>
                dsimp only [rawOf]
                rw [hdf]
                exact addRel_rel_col _
  · intro e t
    by_cases ht : t = 0
    · subst ht
      simp [relative_error, FVal.fsub, FVal.fdiv, sub_zero]
    · simp [relative_error, FVal.fsub, FVal.fdiv, ht]

open Simulator in
/-- C1 counterexample: in `exSimEmptySet` the sole raw row has
`true_cardinality = 0` with estimate 1, and its `relative_error` is `+∞`,
not NaN — refuting the claim that every zero-truth row yields NaN. -/
theorem C1_counterexample_inf_not_nan :
    (rawOf exSimEmptySet.run_all_and_aggregate).map
        (fun r => (r.true_cardinality, r.relative_error)) =
      [(0, FVal.inf true)] ∧
    FVal.inf true ≠ (FVal.nan : FVal ℚ) := by
  constructor
  · simp [exSimEmptySet, mkExampleSim, unitConfig, zeroStream, rawOf,
      Simulator.run_all_and_aggregate, Simulator.runLoop, Simulator.run_one,
      Simulator.metricsLoop, Simulator.addRelativeError, Simulator.tagWith,
      relative_error, FVal.fsub, FVal.fdiv]
  · decide

namespace Simulator

variable {α Sketch ε : Type}

lemma run_one_length [DecidableEq α] (sim : Simulator α Sketch ε) :
    (sim.run_one.1).length = sim.trialSets.length := by
  rw [run_one_fst, metricsLoop_length]

lemma map_const_eq_replicate {β γ : Type} (f : β → γ) (c : γ)
    (h : ∀ x, f x = c) : ∀ l : List β, l.map f = List.replicate l.length c := by
  intro l
  induction l with
  | nil => rfl
  | cons x xs ih => simp [h, ih, List.replicate_succ]

lemma raw_run_index_col [DecidableEq α] (sim : Simulator α Sketch ε) :
    ((((sim.runLoop 0 sim.num_runs).1.flatten).map addRelativeError).map
        (·.run_index)) =
      ((List.range sim.num_runs).map
        (fun k => List.replicate (trialNumSets sim k) k)).flatten := by
  rw [runLoop_fst]
  simp only [List.map_flatten, List.map_map]
  congr 1
  refine List.map_congr_left fun k _ => ?_
  simp only [Function.comp_apply, List.map_map]
  have hlen : trialNumSets sim k = ((sim.simAfter k).run_one.1).length := by
    rw [run_one_length]
    rfl
  rw [hlen]
  refine map_const_eq_replicate _ k (fun r => ?_) _
  simp [addRelativeError, tagWith]

lemma raw_length [DecidableEq α] (sim : Simulator α Sketch ε) :
    (((sim.runLoop 0 sim.num_runs).1.flatten).map addRelativeError).length =
      ((List.range sim.num_runs).map (fun k => trialNumSets sim k)).sum := by
  rw [runLoop_fst]
  simp only [List.length_map, List.length_flatten, List.map_map]
  congr 1
  refine List.map_congr_left fun k _ => ?_
  simp only [Function.comp_apply, List.length_map]
  rw [run_one_length]
  rfl

lemma toFinset_flatten_replicate (f : ℕ → ℕ) :
    ∀ R : ℕ,
      ((((List.range R).map (fun k => List.replicate (f k) k)).flatten).toFinset :
          Finset ℕ) =
        ((List.range R).filter (fun k => f k ≠ 0)).toFinset := by
  intro R
  induction R with
  | zero => rfl
  | succ R ih =>
      rw [List.range_succ]
      simp only [List.map_append, List.flatten_append, List.toFinset_append,
        List.filter_append, ih, List.map_cons, List.map_nil,
        List.flatten_cons, List.flatten_nil, List.append_nil]
      by_cases h : f R = 0
      · simp [h]
      · simp [h, List.toFinset_replicate_of_ne_zero]

lemma toFinset_list_range (n : ℕ) :
    ((List.range n).toFinset : Finset ℕ) = Finset.range n := by
  ext k
  simp

lemma runLoop_not_isEmpty [DecidableEq α] {sim : Simulator α Sketch ε}
    (h : 1 ≤ sim.num_runs) :
    (sim.runLoop 0 sim.num_runs).1.isEmpty = false := by
  have hlen := runLoop_length sim.num_runs 0 sim
  cases hL : (sim.runLoop 0 sim.num_runs).1 with
  | nil => rw [hL] at hlen; simp at hlen; omega
  | cons a l => rfl

lemma computeRawTable_getD [DecidableEq α] {sim : Simulator α Sketch ε}
    (h : 1 ≤ sim.num_runs) :
    (sim.computeRawTable).getD [] =
      ((sim.runLoop 0 sim.num_runs).1.flatten).map addRelativeError := by
  simp [computeRawTable, runLoop_not_isEmpty h]

end Simulator

open Simulator in
/-- C5 (amended): with `num_runs = R ≥ 1` the raw table succeeds, its
`run_index` column is run 0's block first, then run 1's and so on (trial
`k` contributing `trialNumSets sim k` copies of `k`), its row count is the
sum over trials of the number of sets each trial's generator yielded, and
the set of `run_index` values present is exactly the set of trials that
yielded at least one set — all of `0..R−1` only when every trial yields a
nonempty sequence of sets. -/
theorem C5_run_index_structure {α Sketch ε : Type} [DecidableEq α]
    (sim : Simulator α Sketch ε) (hR : 1 ≤ sim.num_runs) :
    (((sim.computeRawTable).getD []).map (·.run_index) =
      ((List.range sim.num_runs).map
        (fun k => List.replicate (trialNumSets sim k) k)).flatten) ∧
    (((sim.computeRawTable).getD []).length =
      ((List.range sim.num_runs).map (fun k => trialNumSets sim k)).sum) ∧
    ((((sim.computeRawTable).getD []).map (·.run_index)).toFinset =
      ((List.range sim.num_runs).filter
        (fun k => trialNumSets sim k ≠ 0)).toFinset) ∧
    ((∀ k < sim.num_runs, 1 ≤ trialNumSets sim k) →
      (((sim.computeRawTable).getD []).map (·.run_index)).toFinset =
        Finset.range sim.num_runs) := by
  have hdf := computeRawTable_getD hR
  have hcol := raw_run_index_col sim
  refine ⟨?_, ?_, ?_, ?_⟩
  · rw [hdf]
    exact hcol
  · rw [hdf]
    exact raw_length sim
  · rw [hdf, hcol]
    exact toFinset_flatten_replicate _ sim.num_runs
  · intro hk
    rw [hdf, hcol, toFinset_flatten_replicate _ sim.num_runs]
    have : (List.range sim.num_runs).filter
        (fun k => trialNumSets sim k ≠ 0) = List.range sim.num_runs := by
      refine List.filter_eq_self.mpr fun k hkmem => ?_
      have hklt : k < sim.num_runs := List.mem_range.mp hkmem
      have := hk k hklt
      simp only [ne_eq, decide_eq_true_eq]
      omega
    rw [this, toFinset_list_range]

open Simulator in
/-- C5 witness: `exSimTwoRuns` runs two trials of two sets each; both run
indices 0 and 1 appear and the table has `2 + 2` rows. -/
theorem C5_run_index_structure_witness :
    ((((exSimTwoRuns.computeRawTable).getD []).map (·.run_index)).toFinset =
      Finset.range exSimTwoRuns.num_runs) ∧
    (((exSimTwoRuns.computeRawTable).getD []).length =
      ((List.range exSimTwoRuns.num_runs).map
        (fun k => trialNumSets exSimTwoRuns k)).sum) :=
  ⟨(C5_run_index_structure exSimTwoRuns (by decide)).2.2.2 (by decide),
   (C5_run_index_structure exSimTwoRuns (by decide)).2.1⟩

open Simulator in
/-- C5 counterexample: `exSimNoSets` has `num_runs = 1 ≥ 1`, yet its raw
table contains zero distinct `run_index` values, not exactly one — a trial
that yields zero sets contributes no rows, so its run index is absent. -/
theorem C5_counterexample_zero_set_trial :
    1 ≤ exSimNoSets.num_runs ∧
    ((rawOf exSimNoSets.run_all_and_aggregate).map (·.run_index)).toFinset =
      (∅ : Finset ℕ) ∧
    (∅ : Finset ℕ) ≠ Finset.range exSimNoSets.num_runs := by
  refine ⟨by decide, ?_, by decide⟩
  simp [exSimNoSets, mkExampleSim, unitConfig, zeroStream, rawOf,
    Simulator.run_all_and_aggregate, Simulator.runLoop, Simulator.run_one,
    Simulator.metricsLoop]

namespace Simulator

lemma aggregate_keys (df : List RawRow) :
    (aggregate df).map (·.num_sets) = groupKeys (df.map (·.num_sets)) := by
  unfold aggregate
  rw [List.map_map]
  exact (List.map_congr_left fun k _ => rfl).trans (List.map_id _)

lemma groupKeys_nodup (ks : List Nat) : (groupKeys ks).Nodup :=
  ((List.perm_insertionSort _ _).nodup_iff).mpr (List.nodup_dedup ks)

lemma groupKeys_toFinset (ks : List Nat) :
    (groupKeys ks).toFinset = ks.toFinset := by
  refine (List.toFinset_eq_of_perm _ _ (List.perm_insertionSort _ _)).trans ?_
  refine List.toFinset.ext fun x => ?_
  simp [List.mem_dedup]

lemma pandasMean_no_nan (xs : List (FVal ℚ))
    (h : ∀ v ∈ xs, v.isNan = false) : pandasMean xs = specArithMean xs := by
  have hfilter : xs.filter (fun v => !v.isNan) = xs :=
    List.filter_eq_self.mpr (fun a ha => by simp [h a ha])
  unfold pandasMean specArithMean
  rw [hfilter]
  by_cases hlen : xs.length = 0
  · have hnil : xs = [] := List.length_eq_zero.mp hlen
    subst hnil
    simp [FVal.fdiv]
  · simp [hlen]

lemma pandasMean_eq_specNanMean (xs : List (FVal ℚ)) :
    pandasMean xs = specNanMean xs := by
  unfold pandasMean specNanMean specArithMean
  by_cases hlen : (xs.filter (fun v => !v.isNan)).length = 0
  · have hnil : xs.filter (fun v => !v.isNan) = [] :=
      List.length_eq_zero.mp hlen
    simp [hnil, FVal.fdiv]
  · simp [hlen]

lemma pandasStd_eq_specNanStd (xs : List (FVal ℚ)) :
    pandasStd xs = specNanStd xs := by
  unfold pandasStd pandasVar specNanStd specArithMean
  by_cases h : (xs.filter (fun v => !v.isNan)).length ≤ 1
  · simp [h, Nat.lt_succ_iff]
  · simp [h, Nat.lt_succ_iff]

end Simulator

open Simulator in
/-- C6 (amended): `aggregate` emits exactly one row per distinct
`num_sets` value of the raw table; the group means of
`estimated_cardinality` and `true_cardinality` are the arithmetic means of
those columns over the matching rows, while the `relative_error` mean
skips NaN entries (NaN only when every entry of the group is NaN); each
standard deviation is the sample standard deviation with `N − 1`
denominator over the group's non-NaN entries, NaN when fewer than two such
entries exist — in particular for any single-row group. -/
theorem C6_aggregate_group_stats (df : List RawRow) :
    ((aggregate df).map (·.num_sets)).Nodup ∧
    ((aggregate df).map (·.num_sets)).toFinset =
      (df.map (·.num_sets)).toFinset ∧
    ((aggregate df).map (·.estimated_cardinality_mean) =
      (groupKeys (df.map (·.num_sets))).map (fun k =>
        specArithMean ((df.filter (fun r => r.num_sets = k)).map
          (fun r => FVal.num r.estimated_cardinality)))) ∧
    ((aggregate df).map (·.true_cardinality_mean) =
      (groupKeys (df.map (·.num_sets))).map (fun k =>
        specArithMean ((df.filter (fun r => r.num_sets = k)).map
          (fun r => FVal.num (r.true_cardinality : ℚ))))) ∧
    ((aggregate df).map (·.relative_error_mean) =
      (groupKeys (df.map (·.num_sets))).map (fun k =>
        specNanMean ((df.filter (fun r => r.num_sets = k)).map
          (·.relative_error)))) ∧
    ((aggregate df).map (·.estimated_cardinality_std) =
      (groupKeys (df.map (·.num_sets))).map (fun k =>
        specNanStd ((df.filter (fun r => r.num_sets = k)).map
          (fun r => FVal.num r.estimated_cardinality)))) ∧
    ((aggregate df).map (·.true_cardinality_std) =
      (groupKeys (df.map (·.num_sets))).map (fun k =>
        specNanStd ((df.filter (fun r => r.num_sets = k)).map
          (fun r => FVal.num (r.true_cardinality : ℚ))))) ∧
    ((aggregate df).map (·.relative_error_std) =
      (groupKeys (df.map (·.num_sets))).map (fun k =>
        specNanStd ((df.filter (fun r => r.num_sets = k)).map
          (·.relative_error)))) := by
  refine ⟨?_, ?_, ?_, ?_, ?_, ?_, ?_, ?_⟩
  · rw [aggregate_keys]
    exact groupKeys_nodup _
  · rw [aggregate_keys]
    exact groupKeys_toFinset _
  · unfold aggregate
    rw [List.map_map]
    refine List.map_congr_left fun k _ => ?_
    exact pandasMean_no_nan _ (fun v hv => by
      rcases List.mem_map.mp hv with ⟨r, _, hr⟩
      rw [← hr]
      rfl)
  · unfold aggregate
    rw [List.map_map]
    refine List.map_congr_left fun k _ => ?_
    exact pandasMean_no_nan _ (fun v hv => by
      rcases List.mem_map.mp hv with ⟨r, _, hr⟩
      rw [← hr]
      rfl)
  · unfold aggregate
    rw [List.map_map]
    refine List.map_congr_left fun k _ => ?_
    exact pandasMean_eq_specNanMean _
  · unfold aggregate
    rw [List.map_map]
    refine List.map_congr_left fun k _ => ?_
    exact pandasStd_eq_specNanStd _
  · unfold aggregate
    rw [List.map_map]
    refine List.map_congr_left fun k _ => ?_
    exact pandasStd_eq_specNanStd _
  · unfold aggregate
    rw [List.map_map]
    refine List.map_congr_left fun k _ => ?_
    exact pandasStd_eq_specNanStd _

open Simulator in
/-- C6 counterexample: `exSimMixedNan` produces a raw table whose
`num_sets = 1` group holds relative errors NaN and −1; pandas' group mean
skips the NaN and reports −1, whereas the arithmetic mean of the whole
column is NaN — so the aggregated mean does not equal the arithmetic mean
over all matching raw rows. -/
theorem C6_counterexample_nan_dropped :
    ((exSimMixedNan.computeRawTable).getD [] =
      [⟨1, 0, 0, 0, FVal.nan⟩, ⟨1, 0, 1, 1, FVal.num (-1)⟩]) ∧
    ((aggregate ((exSimMixedNan.computeRawTable).getD [])).map
        (·.relative_error_mean) = [FVal.num (-1)]) ∧
    (specArithMean (((exSimMixedNan.computeRawTable).getD []).map
        (·.relative_error)) = FVal.nan) ∧
    FVal.num (-1) ≠ (FVal.nan : FVal ℚ) := by
  have hdf : (exSimMixedNan.computeRawTable).getD [] =
      [⟨1, 0, 0, 0, FVal.nan⟩, ⟨1, 0, 1, 1, FVal.num (-1)⟩] := by
    simp [exSimMixedNan, mkExampleSim, unitConfig, zeroStream,
      Simulator.computeRawTable, Simulator.runLoop, Simulator.run_one,
      Simulator.metricsLoop, Simulator.addRelativeError, Simulator.tagWith,
      relative_error, FVal.fsub, FVal.fdiv, sub_zero, zero_sub, div_one]
  refine ⟨hdf, ?_, ?_, by decide⟩
  · rw [hdf]
    have hkeys : groupKeys [1, 1] = [1] := by decide
    simp [aggregate, hkeys, pandasMean, FVal.isNan, FVal.fadd, FVal.fdiv,
      zero_add, div_one]
  · rw [hdf]
    simp [specArithMean, FVal.fadd, FVal.fdiv]
